import Mathlib

/-!
Verification of the ai-commerce-intelligence-platform frontend.

Shallow embedding of the TypeScript sources:
  * `frontend/src/store/auth-store.ts` (zustand session store),
  * `src/app/(dashboard)/layout.tsx` (auth-guarded dashboard layout),
  * `frontend/src/app/(dashboard)/products/page.tsx` (two ProductsPage
    implementations: Supabase client and REST client),
  * `frontend/src/app/(dashboard)/forecast/page.tsx` (forecast listing),
  * `src/app/(dashboard)/dashboard/page.tsx` (BaaS dashboard) and
    `frontend/src/app/(dashboard)/dashboard/page.tsx` (REST dashboard),
  * the products row-level-security policies of the embedded SQL migration.

Every network call is modelled by passing the remote's response as an
explicit argument (`Except ApiError α` for axios-style requests, an
`Option ApiError` for fire-and-forget inserts).  Browser `localStorage`
is a total map from keys to optional strings.  JavaScript number
semantics: integer columns are `Int`, decimal columns are `ℚ`, and the
result of `parseFloat` is `Option ℚ` (`none` standing for `NaN`).
-/

/-- Browser localStorage: a map from string keys to optional string values. -/
def LocalStorage : Type := String → Option String

/-- Model of `localStorage.setItem(k, v)`. -/
def LocalStorage.setItem (ls : LocalStorage) (k v : String) : LocalStorage :=
  fun k' => if k' = k then some v else ls k'

/-- Model of `localStorage.removeItem(k)`. -/
def LocalStorage.removeItem (ls : LocalStorage) (k : String) : LocalStorage :=
  fun k' => if k' = k then none else ls k'

/-- An empty localStorage. -/
def LocalStorage.empty : LocalStorage := fun _ => none

/-- The `User` interface of `src/types/index.ts`.  The string-union
fields (`subscription_tier`, `subscription_status`) are embedded as
strings. -/
structure User where
  id : String
  email : String
  full_name : String
  is_active : Bool
  is_verified : Bool
  subscription_tier : String
  subscription_status : String
  forecast_credits_remaining : Int
  created_at : String
deriving DecidableEq

/-- The `Product` interface of `src/types/index.ts`. -/
structure Product where
  id : String
  user_id : String
  name : String
  description : Option String
  category : String
  base_price : ℚ
  production_method : Option String
  target_market : Option String
  is_active : Bool
  created_at : String
  updated_at : String
deriving DecidableEq

/-- The `Forecast` interface of `src/types/index.ts`.  Optional score
columns are `Option Int` (SQL INTEGER), optional decimal columns are
`Option ℚ`, `status` is one of `pending`, `processing`, `completed`,
`failed`. -/
structure Forecast where
  id : String
  user_id : String
  product_id : String
  target_city_id : Option String
  demand_score : Option Int
  competition_index : Option Int
  profitability_score : Option Int
  expected_sales_volume : Option Int
  recommended_price : Option ℚ
  confidence_level : Option ℚ
  status : String
  error_message : Option String
  processing_started_at : Option String
  processing_completed_at : Option String
  created_at : String
deriving DecidableEq

/-- An error thrown by the API client or the Supabase client. -/
structure ApiError where
  message : String
deriving DecidableEq

/-- The token payload of a successful `POST /api/v1/auth/login`. -/
structure LoginTokens where
  access_token : String
  refresh_token : String
deriving DecidableEq

/-- The state slice of `useAuthStore` (`auth-store.ts`, lines 18-21). -/
structure AuthState where
  user : Option User
  isAuthenticated : Bool
  isLoading : Bool
deriving DecidableEq

/-- The initial store state (`auth-store.ts`, lines 19-21). -/
def initialAuthState : AuthState :=
  { user := none, isAuthenticated := false, isLoading := false }

/-- Result of a store operation: the new store state, the new
localStorage, and the error the operation rethrows (if any). -/
def StoreResult : Type := AuthState × LocalStorage × Option ApiError

/-- `login(email, password)` of `auth-store.ts` (lines 23-47), as a
function of the two responses the environment delivers: the result of
`POST /api/v1/auth/login` and the result of `GET /api/v1/auth/me`.
On a login failure the catch block resets `isLoading` and rethrows; on
a `/me` failure the tokens have already been written to localStorage. -/
def login (st : AuthState) (ls : LocalStorage)
    (loginResp : Except ApiError LoginTokens)
    (meResp : Except ApiError User) : StoreResult :=
  let st1 := { st with isLoading := true }
  match loginResp with
  | .error e => ({ st1 with isLoading := false }, ls, some e)
  | .ok tok =>
      let ls1 := (ls.setItem "access_token" tok.access_token).setItem
        "refresh_token" tok.refresh_token
      match meResp with
      | .error e => ({ st1 with isLoading := false }, ls1, some e)
      | .ok u =>
          ({ st1 with user := some u, isAuthenticated := true, isLoading := false },
            ls1, none)

/-- `register(email, password, fullName)` of `auth-store.ts`
(lines 49-63): on a successful `POST /api/v1/auth/register` it calls
`login`; any error is caught, `isLoading` is reset and the error is
rethrown. -/
def register (st : AuthState) (ls : LocalStorage)
    (registerResp : Except ApiError Unit)
    (loginResp : Except ApiError LoginTokens)
    (meResp : Except ApiError User) : StoreResult :=
  let st1 := { st with isLoading := true }
  match registerResp with
  | .error e => ({ st1 with isLoading := false }, ls, some e)
  | .ok _ =>
      match login st1 ls loginResp meResp with
      | (st2, ls2, some e) => ({ st2 with isLoading := false }, ls2, some e)
      | (st2, ls2, none) => (st2, ls2, none)

/-- `logout()` of `auth-store.ts` (lines 65-72): removes both token
entries and clears the session.  `isLoading` is not touched. -/
def logout (st : AuthState) (ls : LocalStorage) : StoreResult :=
  ({ st with user := none, isAuthenticated := false },
    (ls.removeItem "access_token").removeItem "refresh_token", none)

/-- `fetchUser()` of `auth-store.ts` (lines 74-87), as a function of the
`GET /api/v1/auth/me` response.  The catch block swallows the error and
presents the user as signed out; localStorage is never touched. -/
def fetchUser (st : AuthState) (ls : LocalStorage)
    (meResp : Except ApiError User) : StoreResult :=
  match meResp with
  | .ok u => ({ st with user := some u, isAuthenticated := true }, ls, none)
  | .error _ => ({ st with user := none, isAuthenticated := false }, ls, none)

/-- The session invariant of claim C8: `isAuthenticated` holds exactly
when `user` is non-null. -/
def authInv (st : AuthState) : Prop :=
  st.isAuthenticated = true ↔ st.user ≠ none

instance (st : AuthState) : Decidable (authInv st) := by
  unfold authInv; infer_instance

/-- Claim C1: after a successful `login(email, password)` — both the
`POST /api/v1/auth/login` and the subsequent `GET /api/v1/auth/me`
succeed — the store holds the fetched session: the returned
`access_token` and `refresh_token` are stored in localStorage under
`'access_token'` and `'refresh_token'`, `user` equals the object
returned by `/api/v1/auth/me`, `isAuthenticated` is `true` and
`isLoading` is `false` (and no error is rethrown). -/
theorem login_success_stores_session (st : AuthState) (ls : LocalStorage)
    (tok : LoginTokens) (u : User) :
    (login st ls (.ok tok) (.ok u)).1.user = some u ∧
    (login st ls (.ok tok) (.ok u)).1.isAuthenticated = true ∧
    (login st ls (.ok tok) (.ok u)).1.isLoading = false ∧
    (login st ls (.ok tok) (.ok u)).2.1 "access_token" = some tok.access_token ∧
    (login st ls (.ok tok) (.ok u)).2.1 "refresh_token" = some tok.refresh_token ∧
    (login st ls (.ok tok) (.ok u)).2.2 = none := by
  refine ⟨rfl, rfl, rfl, ?_, ?_, rfl⟩ <;>
    simp [login, LocalStorage.setItem]

/-- Claim C9: `fetchUser` never propagates an error: on any failure of
`GET /api/v1/auth/me` it resolves normally (rethrows nothing) after
setting `user` to `null` and `isAuthenticated` to `false`, leaving
`isLoading` and the whole of localStorage (in particular the
`access_token` and `refresh_token` entries) unchanged. -/
theorem fetchUser_error_resolves_signed_out (st : AuthState)
    (ls : LocalStorage) (e : ApiError) :
    fetchUser st ls (.error e) =
      ({ st with user := none, isAuthenticated := false }, ls, none) :=
  rfl

/-- Claim C8: the invariant `isAuthenticated ↔ user ≠ null` holds in the
initial store state and is preserved by every store operation, whatever
the environment's responses: `login` (resolved or rejected), `register`
(resolved or rejected), `logout`, and `fetchUser`. -/
theorem auth_invariant_preserved :
    authInv initialAuthState ∧
    (∀ st ls lr mr, authInv st → authInv (login st ls lr mr).1) ∧
    (∀ st ls rr lr mr, authInv st → authInv (register st ls rr lr mr).1) ∧
    (∀ st ls, authInv (logout st ls).1) ∧
    (∀ st ls mr, authInv (fetchUser st ls mr).1) := by
  refine ⟨by simp [authInv, initialAuthState], ?_, ?_, ?_, ?_⟩
  · intro st ls lr mr h
    cases lr with
    | error e => simpa [login, authInv] using h
    | ok tok =>
        cases mr with
        | error e => simpa [login, authInv] using h
        | ok u => simp [login, authInv]
  · intro st ls rr lr mr h
    cases rr with
    | error e => simpa [register, authInv] using h
    | ok _ =>
        cases lr with
        | error e => simpa [register, login, authInv] using h
        | ok tok =>
            cases mr with
            | error e => simpa [register, login, authInv] using h
            | ok u => simp [register, login, authInv]
  · intro st ls; simp [logout, authInv]
  · intro st ls mr
    cases mr with
    | error e => simp [fetchUser, authInv]
    | ok u => simp [fetchUser, authInv]

/-- Witness for C8: the invariant after a rejected login from the
initial state. -/
theorem auth_invariant_preserved_witness :
    authInv (login initialAuthState LocalStorage.empty
      (.error { message := "bad credentials" })
      (.error { message := "unreachable" })).1 :=
  auth_invariant_preserved.2.1 initialAuthState LocalStorage.empty
    (.error { message := "bad credentials" })
    (.error { message := "unreachable" }) (by decide)

/-- The effect the dashboard layout's `useEffect` runs
(`src/app/(dashboard)/layout.tsx`, lines 14-20): redirect to `/login`
when unauthenticated, otherwise refresh the session via `fetchUser`. -/
inductive LayoutEffect where
  | pushLogin
  | runFetchUser
deriving DecidableEq

/-- `useEffect` body of `DashboardLayout` as a function of the store's
`isAuthenticated` flag. -/
def dashboardLayoutEffect (isAuthenticated : Bool) : LayoutEffect :=
  if isAuthenticated then .runFetchUser else .pushLogin

/-- What a render of `DashboardLayout` produces: nothing (`null`), or
the dashboard chrome (header showing the session user's email) around
the protected children. -/
inductive LayoutView (α : Type) where
  | nothingView
  | dashboardChrome (userEmail : Option String) (children : α)
deriving DecidableEq

/-- The children embedded in a rendered layout, if any. -/
def LayoutView.renderedChildren {α : Type} : LayoutView α → Option α
  | .nothingView => none
  | .dashboardChrome _ c => some c

/-- Render function of `DashboardLayout`
(`src/app/(dashboard)/layout.tsx`, lines 27-78): returns `null` when
`isAuthenticated` is false, otherwise the chrome around `children`. -/
def renderDashboardLayout {α : Type} (st : AuthState) (children : α) :
    LayoutView α :=
  if st.isAuthenticated then
    .dashboardChrome (st.user.map (fun u => u.email)) children
  else
    .nothingView

/-- Claim C2: in every render of `DashboardLayout` with the session
store's `isAuthenticated` false, the layout renders nothing (`null`) —
so the protected child pages are never rendered — and the layout's
effect is a navigation to `/login`. -/
theorem unauthenticated_layout_renders_null {α : Type} (st : AuthState)
    (children : α) (h : st.isAuthenticated = false) :
    renderDashboardLayout st children = .nothingView ∧
    (renderDashboardLayout st children).renderedChildren = none ∧
    dashboardLayoutEffect st.isAuthenticated = .pushLogin := by
  refine ⟨?_, ?_, ?_⟩ <;>
    simp [renderDashboardLayout, dashboardLayoutEffect, h,
      LayoutView.renderedChildren]

/-- Witness for C2: the initial (signed-out) store state renders no
dashboard. -/
theorem unauthenticated_layout_renders_null_witness :
    renderDashboardLayout initialAuthState "protected page" =
        LayoutView.nothingView ∧
    (renderDashboardLayout initialAuthState
        "protected page").renderedChildren = none ∧
    dashboardLayoutEffect initialAuthState.isAuthenticated =
        LayoutEffect.pushLogin :=
  unauthenticated_layout_renders_null initialAuthState "protected page" rfl

/-- The local state of the BaaS dashboard page
(`src/app/(dashboard)/dashboard/page.tsx`, lines 13-15). -/
structure DashPageState where
  products : List Product
  forecasts : List Forecast
  loading : Bool
deriving DecidableEq

/-- `if (productsRes.data) setProducts(productsRes.data)` (line 30):
the update applied when the products query of the `Promise.all` pair
settles with `res.data` possibly null. -/
def setProductsStep (st : DashPageState) (resp : Option (List Product)) :
    DashPageState :=
  match resp with
  | some data => { st with products := data }
  | none => st

/-- `if (forecastsRes.data) setForecasts(forecastsRes.data)` (line 31). -/
def setForecastsStep (st : DashPageState) (resp : Option (List Forecast)) :
    DashPageState :=
  match resp with
  | some data => { st with forecasts := data }
  | none => st

/-- The whole client state a dashboard page can observe: the persisted
session store (shared with the layout's `fetchUser`) plus the page's
own component state. -/
structure AppState where
  auth : AuthState
  authLs : LocalStorage
  dash : DashPageState

/-- The layout's concurrent `fetchUser` call acting on the combined
state (it touches only the session store). -/
def fetchUserApp (app : AppState) (meResp : Except ApiError User) : AppState :=
  { app with auth := (fetchUser app.auth app.authLs meResp).1 }

/-- `loadDashboardData`'s state update acting on the combined state
(it touches only the page component state). -/
def dashLoadApp (app : AppState) (pr : Option (List Product))
    (fr : Option (List Forecast)) : AppState :=
  { app with dash := setForecastsStep (setProductsStep app.dash pr) fr }

/-- Claim C7: no observable result depends on the interleaving of the
concurrent requests the code issues.  The two list fetches the
dashboard runs through `Promise.all` commute (applying their updates in
either order yields the same page state); the layout's `fetchUser`
commutes with the page's data load (they act on disjoint parts of the
client state); and the session `fetchUser` produces is determined by
the `/me` response alone, not by the store state it races against. -/
theorem dashboard_interleaving_independent :
    (∀ (st : DashPageState) (pr : Option (List Product))
        (fr : Option (List Forecast)),
      setForecastsStep (setProductsStep st pr) fr =
        setProductsStep (setForecastsStep st fr) pr) ∧
    (∀ (app : AppState) (mr : Except ApiError User)
        (pr : Option (List Product)) (fr : Option (List Forecast)),
      fetchUserApp (dashLoadApp app pr fr) mr =
        dashLoadApp (fetchUserApp app mr) pr fr) ∧
    (∀ (st st' : AuthState) (ls ls' : LocalStorage)
        (mr : Except ApiError User),
      (fetchUser st ls mr).1.user = (fetchUser st' ls' mr).1.user ∧
      (fetchUser st ls mr).1.isAuthenticated =
        (fetchUser st' ls' mr).1.isAuthenticated) := by
  refine ⟨?_, ?_, ?_⟩
  · intro st pr fr
    cases pr <;> cases fr <;> rfl
  · intro app mr pr fr
    cases mr <;> rfl
  · intro st st' ls ls' mr
    cases mr <;> exact ⟨rfl, rfl⟩

/-- The Supabase row the BaaS `ProductsPage.handleSubmit` inserts
(`frontend/.../products/page.tsx`, lines 56-63). -/
structure SupaProductInsert where
  user_id : String
  name : String
  category : String
  base_price : Option ℚ
  description : Option String
  is_active : Bool
deriving DecidableEq

/-- The body the REST `ProductsPage.handleSubmit` posts to
`POST /api/v1/products` (`frontend/.../products/page.tsx`,
lines 255-258): the spread of the form, with `base_price` replaced by
its `parseFloat`. -/
structure RestProductBody where
  name : String
  description : String
  category : String
  base_price : Option ℚ
  production_method : String
deriving DecidableEq

/-- Every network request a file under `src/` can issue, with the data
the call site passes. -/
inductive FrontendRequest where
  | postLogin (email password : String)
  | postRegister (email password fullName : String)
  | getMe
  | getProducts
  | postProduct (body : RestProductBody)
  | selectProducts (uid : String)
  | insertProduct (row : SupaProductInsert)
  | getForecasts
  | selectForecasts (uid : String)
deriving DecidableEq

/-- Requests that only read remote state (axios GET, Supabase select). -/
def FrontendRequest.isRead : FrontendRequest → Bool
  | .getMe | .getProducts | .getForecasts
  | .selectProducts _ | .selectForecasts _ => true
  | _ => false

/-- Requests whose target is the forecasts resource
(`/api/v1/forecasts` or the `forecasts` table). -/
def FrontendRequest.targetsForecasts : FrontendRequest → Bool
  | .getForecasts | .selectForecasts _ => true
  | _ => false

/-- The remote relational state the modelled requests can touch. -/
structure Database where
  products : List Product
  forecasts : List Forecast
deriving DecidableEq

/-- Effect of a frontend request on the remote state: reads and auth
calls leave the tables unchanged; a product create materializes a fresh
row (ids and timestamps are generated remotely) in the products table. -/
def applyRequest (db : Database) (r : FrontendRequest) (fresh : Product) :
    Database :=
  match r with
  | .postProduct _ => { db with products := fresh :: db.products }
  | .insertProduct _ => { db with products := fresh :: db.products }
  | _ => db

/-- The requests actually issued by the source, one constructor per
call site: the auth store (login, register, me), the forecast page
(`loadForecasts`), the REST dashboard (`loadStats`), the BaaS dashboard
(`loadDashboardData`), and the two products pages (`loadProducts` and
`handleSubmit` in each). -/
inductive IssuedByFrontend : FrontendRequest → Prop where
  | authLogin (e p : String) : IssuedByFrontend (.postLogin e p)
  | authRegister (e p n : String) : IssuedByFrontend (.postRegister e p n)
  | authMe : IssuedByFrontend .getMe
  | forecastPageLoad : IssuedByFrontend .getForecasts
  | restDashboardProducts : IssuedByFrontend .getProducts
  | restDashboardForecasts : IssuedByFrontend .getForecasts
  | baasDashboardProducts (uid : String) :
      IssuedByFrontend (.selectProducts uid)
  | baasDashboardForecasts (uid : String) :
      IssuedByFrontend (.selectForecasts uid)
  | baasProductsLoad (uid : String) : IssuedByFrontend (.selectProducts uid)
  | baasProductsCreate (row : SupaProductInsert) :
      IssuedByFrontend (.insertProduct row)
  | restProductsLoad : IssuedByFrontend .getProducts
  | restProductsCreate (body : RestProductBody) :
      IssuedByFrontend (.postProduct body)

/-- Claim C3: forecast rows are populated by an external process only.
Every request the frontend source issues against the forecasts resource
is a read, and no frontend request — in particular not the product
creates — changes the forecasts table of the remote state. -/
theorem frontend_never_mutates_forecasts (r : FrontendRequest)
    (h : IssuedByFrontend r) :
    (r.targetsForecasts = true → r.isRead = true) ∧
    (∀ (db : Database) (fresh : Product),
      (applyRequest db r fresh).forecasts = db.forecasts) := by
  cases h <;> refine ⟨?_, fun db fresh => rfl⟩ <;> intro ht <;>
    simp_all [FrontendRequest.targetsForecasts, FrontendRequest.isRead]

/-- Witness for C3: the forecast listing page's own request. -/
theorem frontend_never_mutates_forecasts_witness :
    (FrontendRequest.targetsForecasts .getForecasts = true →
      FrontendRequest.isRead .getForecasts = true) ∧
    (∀ (db : Database) (fresh : Product),
      (applyRequest db .getForecasts fresh).forecasts = db.forecasts) :=
  frontend_never_mutates_forecasts .getForecasts
    IssuedByFrontend.forecastPageLoad

/-- JavaScript `x || 0` on an optional integer column: `undefined`
and `0` are falsy, every other number is truthy. -/
def jsOrZeroInt (o : Option Int) : Int :=
  match o with
  | some v => if v = 0 then 0 else v
  | none => 0

/-- JavaScript `x || 0` on an optional decimal column. -/
def jsOrZeroQ (o : Option ℚ) : ℚ :=
  match o with
  | some v => if v = 0 then 0 else v
  | none => 0

/-- The four score figures a completed forecast card displays
(`frontend/.../forecast/page.tsx`, lines 75-101): each is
`forecast.field || 0`. -/
structure ForecastCardScores where
  demand : Int
  competition : Int
  profitability : Int
  expectedSales : Int
deriving DecidableEq

/-- Rendered scores of one forecast card. -/
def forecastCardScores (f : Forecast) : ForecastCardScores :=
  { demand := jsOrZeroInt f.demand_score
    competition := jsOrZeroInt f.competition_index
    profitability := jsOrZeroInt f.profitability_score
    expectedSales := jsOrZeroInt f.expected_sales_volume }

/-- Per-forecast contribution to the BaaS dashboard's confidence sum
(`src/.../dashboard/page.tsx`, line 49): `f.confidence_level || 0`. -/
def confidenceContribution (f : Forecast) : ℚ :=
  jsOrZeroQ f.confidence_level

/-- JavaScript `x || 0` equals the row value with `0` substituted when
the field is absent (`some 0` and `none` both yield `0`). -/
theorem jsOrZeroInt_eq_getD (o : Option Int) : jsOrZeroInt o = o.getD 0 := by
  cases o with
  | none => rfl
  | some v => by_cases h : v = 0 <;> simp [jsOrZeroInt, h]

/-- Decimal version of `jsOrZeroInt_eq_getD`. -/
theorem jsOrZeroQ_eq_getD (o : Option ℚ) : jsOrZeroQ o = o.getD 0 := by
  cases o with
  | none => rfl
  | some v => by_cases h : v = 0 <;> simp [jsOrZeroQ, h]

/-- Claim C4: no client-side computation produces a forecast score —
every score figure the pages display is exactly the value read from the
backend row with `0` substituted when the field is absent: the four
card figures of the forecast page and the confidence value entering the
BaaS dashboard's statistic. -/
theorem displayed_scores_are_row_values (f : Forecast) :
    forecastCardScores f =
      { demand := f.demand_score.getD 0
        competition := f.competition_index.getD 0
        profitability := f.profitability_score.getD 0
        expectedSales := f.expected_sales_volume.getD 0 } ∧
    confidenceContribution f = f.confidence_level.getD 0 := by
  constructor
  · simp only [forecastCardScores, jsOrZeroInt_eq_getD]
  · simp only [confidenceContribution, jsOrZeroQ_eq_getD]

/-- JavaScript `Math.round`: round half toward positive infinity. -/
def mathRound (q : ℚ) : ℤ := ⌊q + 1 / 2⌋

/-- `averageConfidence` of the BaaS dashboard
(`src/.../dashboard/page.tsx`, lines 48-50): for a non-empty list the
rounded mean of `f.confidence_level || 0`, otherwise `0` (the division
branch is never taken). -/
def averageConfidence (forecasts : List Forecast) : ℤ :=
  if forecasts.length > 0 then
    mathRound
      ((forecasts.foldl (fun sum f => sum + confidenceContribution f) 0) /
        (forecasts.length : ℚ))
  else 0

/-- Folding the confidence contributions equals summing them. -/
theorem foldl_confidence_eq_sum (l : List Forecast) (a : ℚ) :
    l.foldl (fun sum f => sum + confidenceContribution f) a =
      a + (l.map confidenceContribution).sum := by
  induction l generalizing a with
  | nil => simp
  | cons x xs ih => simp [ih, List.sum_cons]; ring

/-- Claim C10: the BaaS dashboard statistic is total: on the empty
forecast list `averageConfidence` is `0` (the guard keeps the division
from being evaluated), and on every non-empty list it is `Math.round`
of the sum of the rows' `confidence_level` values — a missing
`confidence_level` contributing `0` — divided by the list length. -/
theorem averageConfidence_total :
    averageConfidence [] = 0 ∧
    ∀ l : List Forecast, l ≠ [] →
      averageConfidence l =
        mathRound
          (((l.map (fun f => f.confidence_level.getD 0)).sum) /
            (l.length : ℚ)) := by
  refine ⟨rfl, ?_⟩
  intro l hl
  have hlen : 0 < l.length := List.length_pos.mpr hl
  have hmap : l.map confidenceContribution =
      l.map (fun f => f.confidence_level.getD 0) := by
    apply List.map_congr_left
    intro f _
    simp [confidenceContribution, jsOrZeroQ_eq_getD]
  simp only [averageConfidence, if_pos hlen, foldl_confidence_eq_sum,
    zero_add, hmap]

/-- A concrete completed forecast used by witnesses. -/
def sampleForecast : Forecast :=
  { id := "f-1", user_id := "u-1", product_id := "p-1"
    target_city_id := some "c-1"
    demand_score := some 77, competition_index := some 41
    profitability_score := some 63, expected_sales_volume := some 1200
    recommended_price := some (299 / 10), confidence_level := some 80
    status := "completed", error_message := none
    processing_started_at := none, processing_completed_at := none
    created_at := "2025-01-01" }

/-- Witness for C10: the statistic on a concrete one-element list. -/
theorem averageConfidence_total_witness :
    averageConfidence [sampleForecast] =
      mathRound
        ((([sampleForecast].map (fun f => f.confidence_level.getD 0)).sum) /
          (([sampleForecast] : List Forecast).length : ℚ)) :=
  averageConfidence_total.2 [sampleForecast] (by simp)

/-- Form state of the BaaS `ProductsPage`
(`frontend/.../products/page.tsx`, lines 19-24). -/
structure SupaFormData where
  name : String
  category : String
  base_price : String
  description : String
deriving DecidableEq

/-- The reset value of the BaaS form (line 67). -/
def emptySupaForm : SupaFormData :=
  { name := "", category := "", base_price := "", description := "" }

/-- Form state of the REST `ProductsPage`
(`frontend/.../products/page.tsx`, lines 229-235). -/
structure RestFormData where
  name : String
  description : String
  category : String
  base_price : String
  production_method : String
deriving DecidableEq

/-- The initial and reset value of the REST form (lines 229-235 and
260-266): all text fields empty, `production_method` back to `'self'`. -/
def initialRestForm : RestFormData :=
  { name := "", description := "", category := "", base_price := ""
    production_method := "self" }

/-- JavaScript `s || null` on a string: the empty string is falsy. -/
def jsStrOrNull (s : String) : Option String :=
  if s = "" then none else some s

/-- The row the BaaS `handleSubmit` inserts (lines 56-63): `user_id` is
the session user's id, `base_price` is `parseFloat` of the form text,
`description` is `formData.description || null`, `is_active` is true. -/
def supaInsertRow (uid : String) (pf : String → Option ℚ)
    (f : SupaFormData) : SupaProductInsert :=
  { user_id := uid
    name := f.name
    category := f.category
    base_price := pf f.base_price
    description := jsStrOrNull f.description
    is_active := true }

/-- The body the REST `handleSubmit` posts (lines 255-258): the spread
form with `base_price` replaced by its `parseFloat`. -/
def restCreateBody (pf : String → Option ℚ) (f : RestFormData) :
    RestProductBody :=
  { name := f.name
    description := f.description
    category := f.category
    base_price := pf f.base_price
    production_method := f.production_method }

/-- Observable outcome of one run of the BaaS `handleSubmit`. -/
structure SupaSubmitOutcome where
  request : Option SupaProductInsert
  formAfter : SupaFormData
  showFormAfter : Bool
  reloaded : Bool
deriving DecidableEq

/-- `handleSubmit` of the BaaS `ProductsPage` (lines 50-76), as a
function of the insert's outcome: with no session user it returns
without issuing a request; on an insert error the form is kept and the
list not reloaded; on success the form fields are reset, the form is
hidden and `loadProducts` runs again. -/
def supaHandleSubmit (user : Option User) (pf : String → Option ℚ)
    (form : SupaFormData) (showForm : Bool)
    (insertError : Option ApiError) : SupaSubmitOutcome :=
  match user with
  | none =>
      { request := none, formAfter := form, showFormAfter := showForm
        reloaded := false }
  | some u =>
      match insertError with
      | some _ =>
          { request := some (supaInsertRow u.id pf form), formAfter := form
            showFormAfter := showForm, reloaded := false }
      | none =>
          { request := some (supaInsertRow u.id pf form)
            formAfter := emptySupaForm, showFormAfter := false
            reloaded := true }

/-- Observable outcome of one run of the REST `handleSubmit`. -/
structure RestSubmitOutcome where
  request : RestProductBody
  formAfter : RestFormData
  showFormAfter : Bool
  reloaded : Bool
deriving DecidableEq

/-- `handleSubmit` of the REST `ProductsPage` (lines 252-271): on a
POST error the form is kept and the list not reloaded; on success the
form is hidden, reset to its initial value, and `loadProducts` runs
again. -/
def restHandleSubmit (pf : String → Option ℚ) (form : RestFormData)
    (showForm : Bool) (postError : Option ApiError) : RestSubmitOutcome :=
  match postError with
  | some _ =>
      { request := restCreateBody pf form, formAfter := form
        showFormAfter := showForm, reloaded := false }
  | none =>
      { request := restCreateBody pf form, formAfter := initialRestForm
        showFormAfter := false, reloaded := true }

/-- Claim C5: the two `ProductsPage` implementations are
interchangeable for product creation.  Submitting forms that agree on
the fields both forms share — `name`, `category`, and the `base_price`
text fed to `parseFloat` — makes the Supabase insert and the REST POST
carry the same `name`, `category` and `base_price` (the `parseFloat`
of the shared text), and after a successful create both runs reset
their form fields, hide the form, and reload the product list. -/
theorem products_crud_backend_equivalence (u : User)
    (pf : String → Option ℚ) (fS : SupaFormData) (fR : RestFormData)
    (sS sR : Bool)
    (hn : fS.name = fR.name) (hc : fS.category = fR.category)
    (hp : fS.base_price = fR.base_price) :
    ∃ row : SupaProductInsert,
      (supaHandleSubmit (some u) pf fS sS none).request = some row ∧
      row.name = (restHandleSubmit pf fR sR none).request.name ∧
      row.category = (restHandleSubmit pf fR sR none).request.category ∧
      row.base_price = (restHandleSubmit pf fR sR none).request.base_price ∧
      row.base_price = pf fR.base_price ∧
      (supaHandleSubmit (some u) pf fS sS none).formAfter = emptySupaForm ∧
      (supaHandleSubmit (some u) pf fS sS none).showFormAfter = false ∧
      (supaHandleSubmit (some u) pf fS sS none).reloaded = true ∧
      (restHandleSubmit pf fR sR none).formAfter = initialRestForm ∧
      (restHandleSubmit pf fR sR none).showFormAfter = false ∧
      (restHandleSubmit pf fR sR none).reloaded = true := by
  refine ⟨supaInsertRow u.id pf fS, rfl, ?_, ?_, ?_, ?_, rfl, rfl, rfl, rfl,
    rfl, rfl⟩ <;>
    simp [supaInsertRow, restCreateBody, restHandleSubmit, hn, hc, hp]

/-- A concrete `parseFloat` environment for witnesses. -/
def sampleParseFloat : String → Option ℚ :=
  fun s => if s = "24.99" then some (2499 / 100) else none

/-- A concrete session user for witnesses. -/
def sampleUser : User :=
  { id := "u-1", email := "a@b.c", full_name := "Ada"
    is_active := true, is_verified := true
    subscription_tier := "basic", subscription_status := "active"
    forecast_credits_remaining := 50, created_at := "2025-01-01" }

/-- A concrete BaaS form used by witnesses. -/
def sampleSupaForm : SupaFormData :=
  { name := "Tea", category := "Food", base_price := "24.99"
    description := "" }

/-- A concrete REST form used by witnesses, agreeing with
`sampleSupaForm` on the shared fields. -/
def sampleRestForm : RestFormData :=
  { name := "Tea", description := "", category := "Food"
    base_price := "24.99", production_method := "self" }

/-- Witness for C5: the equivalence at a concrete user, `parseFloat`
and pair of forms. -/
theorem products_crud_backend_equivalence_witness :
    ∃ row : SupaProductInsert,
      (supaHandleSubmit (some sampleUser) sampleParseFloat sampleSupaForm
        true none).request = some row ∧
      row.name = (restHandleSubmit sampleParseFloat sampleRestForm true
        none).request.name ∧
      row.category = (restHandleSubmit sampleParseFloat sampleRestForm true
        none).request.category ∧
      row.base_price = (restHandleSubmit sampleParseFloat sampleRestForm true
        none).request.base_price ∧
      row.base_price = sampleParseFloat sampleRestForm.base_price ∧
      (supaHandleSubmit (some sampleUser) sampleParseFloat sampleSupaForm
        true none).formAfter = emptySupaForm ∧
      (supaHandleSubmit (some sampleUser) sampleParseFloat sampleSupaForm
        true none).showFormAfter = false ∧
      (supaHandleSubmit (some sampleUser) sampleParseFloat sampleSupaForm
        true none).reloaded = true ∧
      (restHandleSubmit sampleParseFloat sampleRestForm true
        none).formAfter = initialRestForm ∧
      (restHandleSubmit sampleParseFloat sampleRestForm true
        none).showFormAfter = false ∧
      (restHandleSubmit sampleParseFloat sampleRestForm true
        none).reloaded = true :=
  products_crud_backend_equivalence sampleUser sampleParseFloat
    sampleSupaForm sampleRestForm true true rfl rfl rfl

/-- The SELECT policy on `products` of the embedded SQL migration
("Users can read own products", `USING (auth.uid() = user_id)`). -/
def rlsProductsSelect (authUid : String) (p : Product) : Bool :=
  p.user_id = authUid

/-- The INSERT policy on `products`
("Users can insert own products", `WITH CHECK (auth.uid() = user_id)`). -/
def rlsProductsInsertCheck (authUid : String) (row : SupaProductInsert) :
    Bool :=
  row.user_id = authUid

/-- The query `loadProducts` issues (lines 33-48): a select on
`products` parameterized only on the session user's id. -/
def loadProductsRequest (uid : String) : FrontendRequest :=
  .selectProducts uid

/-- The remote's response to that select: the RLS-filtered rows,
further filtered by the client's `eq('user_id', uid)` parameter. -/
def remoteProductsSelect (db : Database) (authUid filterUid : String) :
    List Product :=
  (db.products.filter (fun p => rlsProductsSelect authUid p)).filter
    (fun p => p.user_id = filterUid)

/-- `setProducts(data)` (line 42): the page state becomes the remote's
response verbatim, whatever was there before. -/
def applyLoadProducts (_prev resp : List Product) : List Product := resp

/-- Claim C6: row visibility is enforced by the remote's RLS policies
alone, with no frontend authorization check: the page stores the
remote's response verbatim (it is a function of the response only),
the read query merely parameterizes on the session user's id, the
insert sets `user_id` to the session user's id (so it satisfies the
INSERT policy's check), what a user observes is exactly the
RLS-filtered rows owned by that user, and hence for two distinct users
neither ever observes a row owned by the other. -/
theorem rls_only_authorization :
    (∀ prev resp : List Product, applyLoadProducts prev resp = resp) ∧
    (∀ (u : User) (pf : String → Option ℚ) (f : SupaFormData),
      (supaInsertRow u.id pf f).user_id = u.id ∧
      rlsProductsInsertCheck u.id (supaInsertRow u.id pf f) = true) ∧
    (∀ uid : String, loadProductsRequest uid = .selectProducts uid) ∧
    (∀ (db : Database) (uid : String),
      remoteProductsSelect db uid uid =
        db.products.filter (fun p => p.user_id = uid)) ∧
    (∀ (db : Database) (a b : String), a ≠ b →
      ∀ p ∈ remoteProductsSelect db a a, p.user_id ≠ b) := by
  refine ⟨fun prev resp => rfl, ?_, fun uid => rfl, ?_, ?_⟩
  · intro u pf f
    exact ⟨rfl, by simp [rlsProductsInsertCheck, supaInsertRow]⟩
  · intro db uid
    simp [remoteProductsSelect, rlsProductsSelect, List.filter_filter]
  · intro db a b hab p hp hb
    rw [remoteProductsSelect, List.mem_filter] at hp
    have ha : p.user_id = a := by simpa using hp.2
    exact hab (ha.symm.trans hb)

/-- A concrete product row used by witnesses. -/
def sampleProduct : Product :=
  { id := "p-1", user_id := "u-1", name := "Tea", description := none
    category := "Food", base_price := 25, production_method := some "self"
    target_market := none, is_active := true
    created_at := "2025-01-01", updated_at := "2025-01-01" }

/-- Witness for C6: with a database holding one row owned by `u-1`,
user `u-2` is distinct and the row `u-1` observes is not owned by
`u-2`. -/
theorem rls_only_authorization_witness : sampleProduct.user_id ≠ "u-2" :=
  rls_only_authorization.2.2.2.2
    { products := [sampleProduct], forecasts := [] } "u-1" "u-2"
    (by decide) sampleProduct
    (by simp [remoteProductsSelect, rlsProductsSelect, sampleProduct])
